import Mathlib

/-!
Verification of the SWIRL region-liveness and notification core
(`swirlconf`: `core.py`, `io.py`, `exception.py`).

The Python code is shallowly embedded: datetimes become explicit
calendar records converted to absolute seconds, numpy float arithmetic
is modelled exactly over `ℚ`, filesystem and socket effects become
explicit environment functions, and raised exceptions become `Except`
values.  `np.sqrt` of the Cartesian distance is strictly monotone on
nonnegative inputs, so ordering and ties of the distances coincide with
those of the squared distances; distances are therefore modelled by
their squares (exact in `ℚ`).
-/

namespace Swirlconf

/-! ### Calendar timestamps (`datetime.datetime` restricted to what the code uses) -/

/-- A parsed `YYYYMMDD_HHMMSS` instant (`datetime.datetime` with whole seconds). -/
structure DateTime where
  year : Nat
  month : Nat
  day : Nat
  hour : Nat
  minute : Nat
  second : Nat
deriving DecidableEq, Repr

/-- Gregorian leap-year rule used by `datetime`. -/
def isLeap (y : Nat) : Bool := (y % 4 == 0 && y % 100 != 0) || y % 400 == 0

/-- Days in a month, as validated by `datetime.datetime`. -/
def daysInMonth (y m : Nat) : Nat :=
  if m = 2 then (if isLeap y then 29 else 28)
  else if m = 4 ∨ m = 6 ∨ m = 9 ∨ m = 11 then 30
  else 31

/-- Days since the civil epoch of 0000-03-01 (Hinnant's civil-days algorithm,
valid for years ≥ 1, which `datetime` guarantees). -/
def daysFromCivil (y m d : Nat) : Nat :=
  let y' := if m ≤ 2 then y - 1 else y
  let era := y' / 400
  let yoe := y' % 400
  let mp := if 2 < m then m - 3 else m + 9
  let doy := (153 * mp + 2) / 5 + (d - 1)
  let doe := yoe * 365 + yoe / 4 - yoe / 100 + doy
  era * 146097 + doe

/-- Absolute seconds of an instant; differences of this value are exactly
`timedelta.total_seconds()` for whole-second datetimes. -/
def toSeconds (t : DateTime) : Int :=
  (daysFromCivil t.year t.month t.day : Int) * 86400
    + t.hour * 3600 + t.minute * 60 + t.second

/-- The `%Y%m%d` date key of an instant (`radar_dtime.strftime("%Y%m%d")`);
injective on valid datetimes, so the triple is an equivalent key. -/
def dateTriple (t : DateTime) : Nat × Nat × Nat := (t.year, t.month, t.day)

/-! ### Filename timestamp extraction
(`re.findall("[0-9]{8}_[0-9]{6}", x)` and `strptime(..., "%Y%m%d_%H%M%S")`). -/

/-- Whether 15 characters form the token `[0-9]{8}_[0-9]{6}`. -/
def isToken (t : List Char) : Bool :=
  match t with
  | [a, b, c, d, e, f, g, h, u, p, q, r, s, v, w] =>
    a.isDigit && b.isDigit && c.isDigit && d.isDigit && e.isDigit && f.isDigit
      && g.isDigit && h.isDigit && u == '_' && p.isDigit && q.isDigit && r.isDigit
      && s.isDigit && v.isDigit && w.isDigit
  | _ => false

/-- Left-to-right non-overlapping scan of `re.findall` for the fixed-width
pattern `[0-9]{8}_[0-9]{6}`; the fuel argument starts at the string length
and dominates the number of scan steps. -/
def findTokensAux : Nat → List Char → List (List Char)
  | 0, _ => []
  | _, [] => []
  | fuel + 1, c :: rest =>
    if isToken ((c :: rest).take 15) then
      (c :: rest).take 15 :: findTokensAux fuel ((c :: rest).drop 15)
    else
      findTokensAux fuel rest

/-- All matches of `[0-9]{8}_[0-9]{6}` in a string, in order. -/
def findTokens (l : List Char) : List (List Char) := findTokensAux l.length l

/-- Numeric value of a digit string. -/
def digitsToNat (l : List Char) : Nat := l.foldl (fun a c => 10 * a + (c.toNat - 48)) 0

/-- `datetime.strptime(token, "%Y%m%d_%H%M%S")`: split the fixed-width fields
and validate the calendar ranges `datetime` enforces (year ≥ 1, month 1–12,
day within the month, hour < 24, minute < 60, second < 60). -/
def strptimeToken (t : List Char) : Option DateTime :=
  match t with
  | [y1, y2, y3, y4, m1, m2, d1, d2, _, h1, h2, mi1, mi2, s1, s2] =>
    let y := digitsToNat [y1, y2, y3, y4]
    let mo := digitsToNat [m1, m2]
    let d := digitsToNat [d1, d2]
    let h := digitsToNat [h1, h2]
    let mi := digitsToNat [mi1, mi2]
    let s := digitsToNat [s1, s2]
    if 1 ≤ y ∧ 1 ≤ mo ∧ mo ≤ 12 ∧ 1 ≤ d ∧ d ≤ daysInMonth y mo
        ∧ h ≤ 23 ∧ mi ≤ 59 ∧ s ≤ 59 then
      some ⟨y, mo, d, h, mi, s⟩
    else
      none
  | _ => none

/-- `get_time` of `update_rids_in_region`:
`strptime(re.findall("[0-9]{8}_[0-9]{6}", x)[-1], "%Y%m%d_%H%M%S")`.
`none` models the raised exception (`IndexError` when no token matches,
`ValueError` when the matched token is not a valid timestamp). -/
def get_time (x : String) : Option DateTime :=
  match (findTokens x.data).getLast? with
  | none => none
  | some tok => strptimeToken tok

/-! ### Directory listing: `sorted(glob.glob(os.path.join(path, "*.*")))` -/

/-- `glob` match for the pattern `*.*`: the name must contain a dot and, per
glob's hidden-file rule, must not start with one. -/
def globMatch (s : String) : Bool :=
  match s.data with
  | [] => false
  | c :: rest => c != '.' && (c :: rest).contains '.'

/-- Python string comparison: lexicographic on code points. -/
def charsLe : List Char → List Char → Bool
  | [], _ => true
  | _ :: _, [] => false
  | a :: ta, b :: tb => if a = b then charsLe ta tb else decide (a < b)

/-- `a <= b` for Python strings. -/
def pyStrLe (a b : String) : Bool := charsLe a.data b.data

/-- Insert into a sorted list (kept stable: an element goes before the first
existing element it is `le` to). -/
def insertLe {α : Type} (le : α → α → Bool) (x : α) : List α → List α
  | [] => [x]
  | y :: ys => if le x y then x :: y :: ys else y :: insertLe le x ys

/-- Stable insertion sort; agrees with Python's stable `sorted` for any total
preorder `le`. -/
def sortLe {α : Type} (le : α → α → Bool) (l : List α) : List α :=
  l.foldr (insertLe le) []

/-- `sorted(...)` on the glob results. -/
def pySorted (l : List String) : List String := sortLe pyStrLe l

/-! ### Environment: the external capabilities the core reads -/

/-- The read-only world of one evaluation: the radar site table
(`get_lat` / `get_lon`), the parsed `regions.json` mapping, and the
`vols/<rid>/<YYYYMMDD>` directory listings (`none` when the directory does
not exist, `some` the raw file names otherwise). -/
structure Env where
  site_lat : Int → ℚ
  site_lon : Int → ℚ
  regions : List (String × List Int)
  vols : Int → Nat × Nat × Nat → Option (List String)

/-- Error values for the exceptions the core raises. -/
inductive SwirlError
  | unknownRegion (name : String)
  | noLiveRadars (name : String)
  | evidenceParse (rid : Int) (fname : String)
  | invalidRegion (rids : List Int)
deriving DecidableEq, Repr

/-! ### Geometry engine: `compute_baricentre` -/

/-- `bar_lat`: `latitudes.sum() / len(latitudes)`. -/
def bar_lat (env : Env) (rids : List Int) : ℚ :=
  (rids.map env.site_lat).sum / rids.length

/-- `bar_lon`: `longitudes.sum() / len(longitudes)`. -/
def bar_lon (env : Env) (rids : List Int) : ℚ :=
  (rids.map env.site_lon).sum / rids.length

/-- The squared Cartesian distance of one radar's site from the barycentre;
the code takes `np.sqrt` of this, which preserves order and ties. -/
def ridSqDist (env : Env) (rids : List Int) (r : Int) : ℚ :=
  (env.site_lat r - bar_lat env rids) ^ 2 + (env.site_lon r - bar_lon env rids) ^ 2

/-- The array `cartesian_distance` of `compute_baricentre` (squared). -/
def cartesian_distance_sq (env : Env) (rids : List Int) : List ℚ :=
  rids.map (ridSqDist env rids)

/-- The deterministic part of `compute_baricentre`: the `< 2` guard
(`raise ValueError`) and the returned `(bar_lon, bar_lat)` pair. -/
def compute_baricentre_lonlat (env : Env) (rids : List Int) :
    Except SwirlError (ℚ × ℚ) :=
  if rids.length < 2 then .error (.invalidRegion rids)
  else .ok (bar_lon env rids, bar_lat env rids)

/-- A permutation produced by `np.argsort keys`: a rearrangement of the index
range along which the keys are non-decreasing.  `np.argsort`'s default
`quicksort` kind guarantees nothing more (in particular it is not stable),
so the sort is modelled by this predicate over all admissible outputs. -/
def IsArgsort (keys : List ℚ) (perm : List Nat) : Prop :=
  perm.Perm (List.range keys.length) ∧
    (perm.map (fun i => keys.getD i 0)).Pairwise (· ≤ ·)

/-- The possible results `(bar_lon, bar_lat, rids[np.argsort(cartesian_distance)])`
of `compute_baricentre` on a region with at least two radars. -/
def baricentre_rel (env : Env) (rids : List Int) (out : ℚ × ℚ × List Int) : Prop :=
  2 ≤ rids.length ∧
    out.1 = bar_lon env rids ∧
    out.2.1 = bar_lat env rids ∧
    ∃ perm, IsArgsort (cartesian_distance_sq env rids) perm ∧
      out.2.2 = perm.map (fun i => rids.getD i 0)

/-- The stable argsort: indices ordered by key, ties by original position.
This is what the specification's `RankByDistance` ("ties preserve original
input order") describes; it is a specification-side definition to compare
the code against, not part of the code. -/
def argsortStable (keys : List ℚ) : List Nat :=
  sortLe (fun i j => decide (keys.getD i 0 < keys.getD j 0
    ∨ (keys.getD i 0 = keys.getD j 0 ∧ i ≤ j))) (List.range keys.length)

/-! ### Liveness evaluator: `update_rids_in_region` -/

/-- Outcome of the loop body of `update_rids_in_region` for one radar. -/
inductive RStatus
  | skip
  | stale
  | live
  | parseErr (fname : String)
deriving DecidableEq, Repr

/-- One iteration of the loop of `update_rids_in_region`: missing directory
or empty listing → skipped; otherwise the last sorted filename's timestamp is
parsed (`parseErr` models the propagated exception when that fails) and the
staleness test `delta.total_seconds() > max_radar_downtime` decides
stale/live. -/
def radar_status (env : Env) (rdt : DateTime) (md : Int) (r : Int) : RStatus :=
  match env.vols r (dateTriple rdt) with
  | none => .skip
  | some files =>
    match (pySorted (files.filter globMatch)).getLast? with
    | none => .skip
    | some lastf =>
      match get_time lastf with
      | none => .parseErr lastf
      | some rtime =>
        if toSeconds rdt - toSeconds rtime > md then .stale else .live

/-- Whether the loop includes radar `r` in `valid_rids`. -/
def isLive (env : Env) (rdt : DateTime) (md : Int) (r : Int) : Bool :=
  match radar_status env rdt md r with
  | .live => true
  | _ => false

/-- The `for r in regions_rids` loop of `update_rids_in_region`, accumulating
`valid_rids`; a parse failure aborts the whole call (the exception
propagates). -/
def updateLoop (env : Env) (rdt : DateTime) (md : Int) :
    List Int → Except SwirlError (List Int)
  | [] => .ok []
  | r :: rest =>
    match radar_status env rdt md r with
    | .skip => updateLoop env rdt md rest
    | .stale => updateLoop env rdt md rest
    | .parseErr f => .error (.evidenceParse r f)
    | .live => (updateLoop env rdt md rest).map (fun v => r :: v)

/-- `update_rids_in_region(region_name, radar_dtime, max_radar_downtime)`:
region lookup (`KeyError` when absent), the per-radar loop, and the final
`len(valid_rids) == 0` guard raising `ValueError` naming the region. -/
def update_rids_in_region (env : Env) (region_name : String) (radar_dtime : DateTime)
    (max_radar_downtime : Int) : Except SwirlError (List Int) :=
  match env.regions.lookup region_name with
  | none => .error (.unknownRegion region_name)
  | some regions_rids =>
    match updateLoop env radar_dtime max_radar_downtime regions_rids with
    | .error e => .error e
    | .ok valid_rids =>
      if valid_rids = [] then .error (.noLiveRadars region_name)
      else .ok valid_rids

/-- First radar of the list whose status is a parse failure, with the
offending filename. -/
def firstParseErr (env : Env) (rdt : DateTime) (md : Int) :
    List Int → Option (Int × String)
  | [] => none
  | r :: rest =>
    match radar_status env rdt md r with
    | .parseErr f => some (r, f)
    | _ => firstParseErr env rdt md rest

/-! ### Notification channel: `decode_message` and `dispatch_message` -/

/-- The fixed key order checked by `decode_message`. -/
def required_keys : List String := ["who", "what", "where", "when", "uid"]

/-- The `KeyError` message raised by `decode_message`. -/
def keyErrMsg (k : String) : String := "Key: " ++ k ++ " not found in incoming message."

/-- The validation loop of `decode_message` over an already-deserialized
payload (a finite string-keyed mapping): stop with the first missing key's
error. -/
def checkKeys {V : Type} (data : List (String × V)) : List String → Except String Unit
  | [] => .ok ()
  | k :: rest =>
    if (data.lookup k).isSome then checkKeys data rest else .error (keyErrMsg k)

/-- `decode_message` after deserialization: validate the five keys in order,
then return the payload itself unchanged. -/
def decode_message {V : Type} (data : List (String × V)) :
    Except String (List (String × V)) :=
  (checkKeys data required_keys).map (fun _ => data)

/-- Transport-level failures of `asyncio.open_connection` / `write`:
a refused connection, or any other `OSError`-like condition. -/
inductive NetError
  | connectionRefused
  | osError (s : String)
deriving DecidableEq, Repr

/-- `dispatch_message(message, port)`: attempt the connection and write
(modelled by `net`); `except ConnectionRefusedError` logs and falls through
to `return None`, every other exception propagates.  The Python function
returns `None` on success and on the caught refusal alike. -/
def dispatch_message (net : Int → String → Except NetError Unit)
    (message : String) (port : Int) : Except NetError Unit :=
  match net port message with
  | .ok _ => .ok ()
  | .error .connectionRefused => .ok ()
  | .error e => .error e

/-! ### The `buffer` decorator (`exception.py`) -/

/-- Python exceptions as the `buffer` decorator distinguishes them: the two
named filesystem errors, any other exception deriving from `Exception`, and
`BaseException` subclasses that do not derive from `Exception`
(`KeyboardInterrupt`, `SystemExit`, `GeneratorExit`). -/
inductive PyExc
  | fileExistsError
  | fileNotFoundError
  | otherException (name : String)
  | baseExceptionOnly (name : String)
deriving DecidableEq, Repr

/-- Whether `except Exception` catches the exception. -/
def derivesException : PyExc → Bool
  | .baseExceptionOnly _ => false
  | _ => true

/-- The `buffer` decorator (sync and async wrappers are textually identical):
`FileExistsError`, `FileNotFoundError` and any other `Exception` are caught
and turned into a `None` return; anything else is not caught.  The wrapped
call's normal result `rslt` is returned as `some rslt`, a caught exception
as `none`. -/
def buffer {α β : Type} (func : α → Except PyExc β) (a : α) : Except PyExc (Option β) :=
  match func a with
  | .ok rslt => .ok (some rslt)
  | .error .fileExistsError => .ok none
  | .error .fileNotFoundError => .ok none
  | .error (.otherException _) => .ok none
  | .error (.baseExceptionOnly e) => .error (.baseExceptionOnly e)

/-! ### Concrete environments used to exercise the definitions -/

/-- Reference instant 2022-11-15 00:10:00 used by the concrete evaluations. -/
def rdtW : DateTime := ⟨2022, 11, 15, 0, 10, 0⟩

/-- Region of three collinear radars whose declared order `[1, 2, 3]` differs
from the distance ranking around their barycentre (longitudes 0, 10, 11). -/
def envC1 : Env where
  site_lat := fun _ => 0
  site_lon := fun r => if r = 2 then 10 else if r = 3 then 11 else 0
  regions := [("R", [1, 2, 3])]
  vols := fun _ _ => some ["v_20221115_000500.h5"]

/-- Two radars symmetric about their barycentre: equal distances. -/
def envC3 : Env where
  site_lat := fun _ => 0
  site_lon := fun r => if r = 2 then 2 else 0
  regions := []
  vols := fun _ _ => none

/-- Radars 1/2/3 with last evidence 601/599/600 seconds before `rdtW`;
radar 9's evidence is a day old; radar 8's last filename has no timestamp
token. -/
def envC4 : Env where
  site_lat := fun _ => 0
  site_lon := fun _ => 0
  regions := [("A", [1, 2, 3]), ("Z", [9]), ("E", [8])]
  vols := fun r _ =>
    if r = 1 then some ["v_20221114_235959.h5"]
    else if r = 2 then some ["v_20221115_000001.h5"]
    else if r = 3 then some ["v_20221115_000000.h5"]
    else if r = 9 then some ["v_20221114_000000.h5"]
    else if r = 8 then some ["badfile.h5"]
    else none

/-- Two sites at (0,0) and (10,10). -/
def env7 : Env where
  site_lat := fun r => if r = 2 then 10 else 0
  site_lon := fun r => if r = 2 then 10 else 0
  regions := []
  vols := fun _ _ => none

/-- A payload with the `uid` key missing. -/
def payloadMissingUid : List (String × Nat) :=
  [("who", 0), ("what", 1), ("where", 2), ("when", 3)]

/-- A well-formed payload carrying all five keys. -/
def payloadFull : List (String × Nat) :=
  [("who", 0), ("what", 1), ("where", 2), ("when", 3), ("uid", 4)]

/-! ### Helper lemmas -/

/-- Indexing the whole range of a list reproduces the list. -/
theorem map_getD_range {α : Type} (l : List α) (d : α) :
    (List.range l.length).map (fun i => l.getD i d) = l := by
  induction l with
  | nil => rfl
  | cons a t ih =>
    rw [List.length_cons, List.range_succ_eq_map, List.map_cons, List.map_map]
    simp only [List.getD_cons_zero, Function.comp_def, List.getD_cons_succ]
    rw [ih]

/-- `getD` after `map`, inside bounds. -/
theorem getD_map_lt {α : Type} (l : List α) (f : α → ℚ) (i : Nat)
    (h : i < l.length) (d : α) : (l.map f).getD i 0 = f (l.getD i d) := by
  rw [List.getD_eq_getElem _ _ (by simpa using h), List.getD_eq_getElem _ _ h,
    List.getElem_map]

/-- `checkKeys` stops at the first key whose lookup fails, in list order. -/
theorem checkKeys_eq {V : Type} (data : List (String × V)) :
    ∀ keys, checkKeys data keys =
      match keys.find? (fun j => (data.lookup j).isNone) with
      | some k => .error (keyErrMsg k)
      | none => .ok () := by
  intro keys
  induction keys with
  | nil => rfl
  | cons k rest ih =>
    rw [List.find?_cons]
    cases hk : data.lookup k with
    | none => simp [checkKeys, hk]
    | some v => simpa [checkKeys, hk] using ih

/-! ### Claim C6: decode_message key validation -/

/-- Claim C6: `decode_message` succeeds, returning the payload unchanged,
exactly when all five required keys are present; otherwise it fails naming
the first missing key in the fixed order `who, what, where, when, uid`. -/
theorem c6_decode_message_keys : ∀ (V : Type) (data : List (String × V)),
    (decode_message data = .ok data ↔
      ∀ k ∈ required_keys, (data.lookup k).isSome) ∧
    (∀ k, required_keys.find? (fun j => (data.lookup j).isNone) = some k →
      decode_message data = .error (keyErrMsg k)) ∧
    (required_keys.find? (fun j => (data.lookup j).isNone) = none →
      decode_message data = .ok data) := by
  intro V data
  have hd : decode_message data = (checkKeys data required_keys).map (fun _ => data) := rfl
  refine ⟨?_, ?_, ?_⟩
  · rw [hd, checkKeys_eq]
    cases hf : required_keys.find? (fun j => (data.lookup j).isNone) with
    | none =>
      simp only [Except.map]
      constructor
      · intro _ k hk
        have := List.find?_eq_none.mp hf k hk
        simpa using this
      · intro _
        trivial
    | some k =>
      simp only [Except.map]
      constructor
      · intro h
        exact absurd h (by simp)
      · intro hall
        have hmem := List.mem_of_find?_eq_some hf
        have hp := List.find?_some hf
        have hnone : data.lookup k = none := by simpa using hp
        have := hall k hmem
        rw [hnone] at this
        simp at this
  · intro k hf
    rw [hd, checkKeys_eq, hf]
    rfl
  · intro hf
    rw [hd, checkKeys_eq, hf]
    rfl

/-- Witness for C6: a payload missing only `uid` fails naming `uid`; the
full payload round-trips unchanged. -/
theorem c6_decode_message_keys_witness :
    decode_message payloadMissingUid = .error (keyErrMsg "uid") ∧
      decode_message payloadFull = .ok payloadFull :=
  ⟨(c6_decode_message_keys Nat payloadMissingUid).2.1 "uid" rfl,
    (c6_decode_message_keys Nat payloadFull).2.2 rfl⟩

/-! ### Claim C2: dispatch_message error handling -/

/-- Counterexample for C2: a transport error other than a refused connection
propagates out of `dispatch_message`, and a caught refusal returns exactly
the same `None` as a success, so no failure indicator distinguishes the two. -/
theorem c2_dispatch_counterexample :
    dispatch_message (fun _ _ => .error (.osError "connection reset by peer")) "vol.h5" 9921
        = .error (.osError "connection reset by peer") ∧
      dispatch_message (fun _ _ => .error .connectionRefused) "vol.h5" 9921
        = dispatch_message (fun _ _ => .ok ()) "vol.h5" 9921 :=
  ⟨rfl, rfl⟩

/-- Claim C2 (amended): `dispatch_message` catches only a refused connection
(returning `None`, indistinguishable from the `None` of a successful send);
every other transport-level error propagates to the caller. -/
theorem c2_dispatch_soft_refusal_only :
    ∀ (net : Int → String → Except NetError Unit) (message : String) (port : Int),
    (∀ u, net port message = .ok u → dispatch_message net message port = .ok ()) ∧
    (net port message = .error .connectionRefused →
      dispatch_message net message port = .ok ()) ∧
    (∀ s, net port message = .error (.osError s) →
      dispatch_message net message port = .error (.osError s)) := by
  intro net message port
  refine ⟨?_, ?_, ?_⟩
  · intro u h
    unfold dispatch_message
    rw [h]
  · intro h
    unfold dispatch_message
    rw [h]
  · intro s h
    unfold dispatch_message
    rw [h]

/-- Witness for C2 (amended): concrete transports exercising all three
branches. -/
theorem c2_dispatch_soft_refusal_only_witness :
    dispatch_message (fun _ _ => .ok ()) "vol.h5" 9921 = .ok () ∧
      dispatch_message (fun _ _ => .error .connectionRefused) "vol.h5" 9931 = .ok () ∧
      dispatch_message (fun _ _ => .error (.osError "timeout")) "vol.h5" 9941
        = .error (.osError "timeout") :=
  ⟨(c2_dispatch_soft_refusal_only (fun _ _ => .ok ()) "vol.h5" 9921).1 () rfl,
    (c2_dispatch_soft_refusal_only (fun _ _ => .error .connectionRefused) "vol.h5" 9931).2.1 rfl,
    (c2_dispatch_soft_refusal_only (fun _ _ => .error (.osError "timeout")) "vol.h5" 9941).2.2
      "timeout" rfl⟩

/-! ### Claim C10: the buffer decorator -/

/-- Counterexample for C10: an exception outside the `Exception` hierarchy
(here `KeyboardInterrupt`) is not caught by the wrapper's `except Exception`
and propagates, so "any exception whatsoever" fails. -/
theorem c10_base_exception_counterexample :
    buffer (fun _ : Unit => (.error (.baseExceptionOnly "KeyboardInterrupt") : Except PyExc Nat)) ()
        = .error (.baseExceptionOnly "KeyboardInterrupt") ∧
      buffer (fun _ : Unit => (.error (.baseExceptionOnly "KeyboardInterrupt") : Except PyExc Nat)) ()
        ≠ .ok none :=
  ⟨rfl, by simp [buffer]⟩

/-- Claim C10 (amended): the wrapper returns the wrapped function's normal
result unchanged; any raised exception deriving from `Exception` is caught
and turned into `None`; `BaseException`-only exceptions propagate. -/
theorem c10_buffer_exception_scope :
    ∀ (α β : Type) (func : α → Except PyExc β) (a : α),
    (∀ r, func a = .ok r → buffer func a = .ok (some r)) ∧
    (∀ e, func a = .error e → derivesException e = true → buffer func a = .ok none) ∧
    (∀ s, func a = .error (.baseExceptionOnly s) →
      buffer func a = .error (.baseExceptionOnly s)) := by
  intro α β func a
  refine ⟨?_, ?_, ?_⟩
  · intro r h
    unfold buffer
    rw [h]
  · intro e h hd
    unfold buffer
    rw [h]
    cases e <;> simp [derivesException] at hd ⊢
  · intro s h
    unfold buffer
    rw [h]

/-- Witness for C10 (amended): a normal result is passed through; a raised
`Exception` subclass becomes `None`. -/
theorem c10_buffer_exception_scope_witness :
    buffer (fun _ : Unit => (.ok 7 : Except PyExc Nat)) () = .ok (some 7) ∧
      buffer (fun _ : Unit => (.error (.otherException "ValueError") : Except PyExc Nat)) ()
        = .ok none :=
  ⟨(c10_buffer_exception_scope Unit Nat (fun _ => .ok 7) ()).1 7 rfl,
    (c10_buffer_exception_scope Unit Nat (fun _ => .error (.otherException "ValueError")) ()).2.1
      (.otherException "ValueError") rfl rfl⟩

/-! ### Claim C7: the barycentre -/

/-- Claim C7: `compute_baricentre` fails with the invalid-region error on
fewer than two sites, and otherwise returns exactly the arithmetic means of
the latitudes and longitudes; on sites (0,0) and (10,10) it returns (5,5). -/
theorem c7_barycentre_mean :
    (∀ (env : Env) (rids : List Int), rids.length < 2 →
      compute_baricentre_lonlat env rids = .error (.invalidRegion rids)) ∧
    (∀ (env : Env) (rids : List Int), 2 ≤ rids.length →
      compute_baricentre_lonlat env rids = .ok (bar_lon env rids, bar_lat env rids) ∧
        (rids.length : ℚ) * bar_lon env rids = (rids.map env.site_lon).sum ∧
        (rids.length : ℚ) * bar_lat env rids = (rids.map env.site_lat).sum) ∧
    compute_baricentre_lonlat env7 [1, 2] = .ok (5, 5) := by
  refine ⟨?_, ?_, ?_⟩
  · intro env rids h
    rw [compute_baricentre_lonlat, if_pos h]
  · intro env rids h
    have hne : (rids.length : ℚ) ≠ 0 := by
      have h0 : rids.length ≠ 0 := by omega
      exact_mod_cast h0
    refine ⟨?_, ?_, ?_⟩
    · rw [compute_baricentre_lonlat, if_neg (by omega)]
    · rw [bar_lon, mul_comm, div_mul_cancel₀ _ hne]
    · rw [bar_lat, mul_comm, div_mul_cancel₀ _ hne]
  · norm_num [compute_baricentre_lonlat, bar_lon, bar_lat, env7]

/-- Witness for C7: both branches at concrete inputs. -/
theorem c7_barycentre_mean_witness :
    compute_baricentre_lonlat env7 [1] = .error (.invalidRegion [1]) ∧
      (compute_baricentre_lonlat env7 [1, 2]
          = .ok (bar_lon env7 [1, 2], bar_lat env7 [1, 2]) ∧
        (([1, 2] : List Int).length : ℚ) * bar_lon env7 [1, 2]
          = (([1, 2] : List Int).map env7.site_lon).sum ∧
        (([1, 2] : List Int).length : ℚ) * bar_lat env7 [1, 2]
          = (([1, 2] : List Int).map env7.site_lat).sum) :=
  ⟨c7_barycentre_mean.1 env7 [1] (by decide),
    c7_barycentre_mean.2.1 env7 [1, 2] (by decide)⟩

/-! ### Claim C3: the distance ranking -/

/-- The squared distances of `envC3`'s two sites are tied. -/
theorem envC3_dists : cartesian_distance_sq envC3 [1, 2] = [1, 1] := by
  norm_num [cartesian_distance_sq, ridSqDist, bar_lon, bar_lat, envC3]

/-- Counterexample for C3: on two sites at equal distance from the
barycentre, `rids[np.argsort(...)]` may return them in reversed order —
`np.argsort`'s default quicksort guarantees no tie stability — so the output
need not equal the stable ranking that keeps ties in input order. -/
theorem c3_unstable_ties_counterexample :
    baricentre_rel envC3 [1, 2] (1, 0, [2, 1]) ∧
      ([2, 1] : List Int) ≠
        (argsortStable (cartesian_distance_sq envC3 [1, 2])).map
          (fun i => ([1, 2] : List Int).getD i 0) := by
  constructor
  · refine ⟨by decide, ?_, ?_, [1, 0], ⟨?_, ?_⟩, rfl⟩
    · norm_num [bar_lon, envC3]
    · norm_num [bar_lat, envC3]
    · rw [envC3_dists]
      decide
    · rw [envC3_dists]
      decide
  · rw [envC3_dists]
    decide

/-- Claim C3 (amended): every possible output of the ranking step is a
permutation of the input RadarIds along which the (squared) distances from
the barycentre are non-decreasing; the order of equal-distance ties is not
specified. -/
theorem c3_rank_perm_nondecreasing :
    ∀ (env : Env) (rids : List Int) (out : ℚ × ℚ × List Int),
    baricentre_rel env rids out →
      out.2.2.Perm rids ∧ (out.2.2.map (ridSqDist env rids)).Pairwise (· ≤ ·) := by
  intro env rids out h
  obtain ⟨hlen, h1, h2, perm, ⟨hp, hs⟩, hout⟩ := h
  have hlen2 : (cartesian_distance_sq env rids).length = rids.length := by
    simp [cartesian_distance_sq]
  rw [hlen2] at hp
  constructor
  · rw [hout]
    have h1p := hp.map (fun i => rids.getD i 0)
    rw [map_getD_range rids 0] at h1p
    exact h1p
  · rw [hout, List.map_map]
    have hcongr : perm.map (ridSqDist env rids ∘ fun i => rids.getD i 0)
        = perm.map (fun i => (cartesian_distance_sq env rids).getD i 0) := by
      apply List.map_congr_left
      intro i hi
      have hlt : i < rids.length := List.mem_range.mp (hp.mem_iff.mp hi)
      simp only [Function.comp_apply, cartesian_distance_sq]
      rw [getD_map_lt rids (ridSqDist env rids) i hlt 0]
    rw [hcongr]
    exact hs

/-- Witness for C3 (amended): the identity argsort on the tied pair. -/
theorem c3_rank_perm_nondecreasing_witness :
    ([1, 2] : List Int).Perm [1, 2] ∧
      ((([1, 2] : List Int)).map (ridSqDist envC3 [1, 2])).Pairwise (· ≤ ·) := by
  have h : baricentre_rel envC3 [1, 2] (1, 0, [1, 2]) := by
    refine ⟨by decide, ?_, ?_, [0, 1], ⟨?_, ?_⟩, rfl⟩
    · norm_num [bar_lon, envC3]
    · norm_num [bar_lat, envC3]
    · rw [envC3_dists]
      decide
    · rw [envC3_dists]
      decide
  exact c3_rank_perm_nondecreasing envC3 [1, 2] (1, 0, [1, 2]) h

/-! ### Liveness evaluator characterization -/

/-- The radar loop either stops at the first parse failure or returns
exactly the live members in declared order. -/
theorem updateLoop_spec (env : Env) (rdt : DateTime) (md : Int) (rids : List Int) :
    updateLoop env rdt md rids =
      match firstParseErr env rdt md rids with
      | some rf => .error (.evidenceParse rf.1 rf.2)
      | none => .ok (rids.filter (isLive env rdt md)) := by
  induction rids with
  | nil => rfl
  | cons r rest ih =>
    cases h : radar_status env rdt md r with
    | skip =>
      simp only [updateLoop, firstParseErr, List.filter_cons, isLive, h]
      simpa using ih
    | stale =>
      simp only [updateLoop, firstParseErr, List.filter_cons, isLive, h]
      simpa using ih
    | parseErr f =>
      simp only [updateLoop, firstParseErr, h]
    | live =>
      cases hf : firstParseErr env rdt md rest <;>
        simp [updateLoop, firstParseErr, List.filter_cons, isLive, h, hf, ih, Except.map]

/-- A parse-error-free prefix does not affect where the first parse error of
the remainder is found. -/
theorem firstParseErr_append (env : Env) (rdt : DateTime) (md : Int) (pre l : List Int)
    (h : firstParseErr env rdt md pre = none) :
    firstParseErr env rdt md (pre ++ l) = firstParseErr env rdt md l := by
  induction pre with
  | nil => simp
  | cons r rest ih =>
    rw [List.cons_append]
    simp only [firstParseErr] at h ⊢
    cases hr : radar_status env rdt md r <;> simp [hr] at h ⊢ <;> exact ih h

/-- Full characterization of `update_rids_in_region`. -/
theorem update_eq (env : Env) (name : String) (rdt : DateTime) (md : Int) :
    update_rids_in_region env name rdt md =
      match env.regions.lookup name with
      | none => .error (.unknownRegion name)
      | some members =>
        match firstParseErr env rdt md members with
        | some rf => .error (.evidenceParse rf.1 rf.2)
        | none =>
          if members.filter (isLive env rdt md) = [] then .error (.noLiveRadars name)
          else .ok (members.filter (isLive env rdt md)) := by
  unfold update_rids_in_region
  cases hl : env.regions.lookup name with
  | none => rfl
  | some members =>
    dsimp only
    rw [updateLoop_spec]
    cases hf : firstParseErr env rdt md members with
    | some rf => rfl
    | none => rfl

/-- A successful evaluation returns exactly the live members in declared
order. -/
theorem update_ok_eq (env : Env) (name : String) (rdt : DateTime) (md : Int)
    (members out : List Int) (hm : env.regions.lookup name = some members)
    (h : update_rids_in_region env name rdt md = .ok out) :
    out = members.filter (isLive env rdt md) := by
  rw [update_eq] at h
  cases hf : firstParseErr env rdt md members with
  | some rf => simp [hm, hf] at h
  | none =>
    simp only [hm, hf] at h
    split at h
    · simp at h
    · rw [Except.ok.injEq] at h
      exact h.symm

/-! ### Claim C1: what the evaluation returns -/

/-- Counterexample for C1: all three radars of `envC1` are live, the call
returns them in declared order `[1, 2, 3]`, and the squared distances from
the barycentre along that output, `[49, 9, 16]`, are not non-decreasing —
so the result is not the distance ranking of §4.1 (the code never invokes
`compute_baricentre`). -/
theorem c1_not_distance_ranked_counterexample :
    update_rids_in_region envC1 "R" rdtW 600 = .ok [1, 2, 3] ∧
      ¬ ((([1, 2, 3] : List Int).map (ridSqDist envC1 [1, 2, 3])).Pairwise (· ≤ ·)) := by
  constructor
  · rfl
  · have h : ([1, 2, 3] : List Int).map (ridSqDist envC1 [1, 2, 3]) = [49, 9, 16] := by
      norm_num [ridSqDist, bar_lon, bar_lat, envC1]
    rw [h]
    decide

/-- Claim C1 (amended): a successful region evaluation returns exactly the
member radars judged live, in the region's declared order; no barycentre or
distance ranking is applied to the result. -/
theorem c1_update_returns_declared_order :
    ∀ (env : Env) (name : String) (rdt : DateTime) (md : Int) (members out : List Int),
    env.regions.lookup name = some members →
    update_rids_in_region env name rdt md = .ok out →
    out = members.filter (isLive env rdt md) :=
  fun env name rdt md members out hm h => update_ok_eq env name rdt md members out hm h

/-- Witness for C1 (amended): the three live radars come back in declared
order. -/
theorem c1_update_returns_declared_order_witness :
    ([1, 2, 3] : List Int) = ([1, 2, 3] : List Int).filter (isLive envC1 rdtW 600) :=
  c1_update_returns_declared_order envC1 "R" rdtW 600 [1, 2, 3] [1, 2, 3] rfl rfl

/-! ### Claim C4: the staleness boundary -/

/-- Claim C4: a member radar with parsable evidence is included in a
successful evaluation iff `delta = referenceInstant - lastSeen` does not
exceed `maxStaleness` in seconds; exclusion happens exactly when `delta` is
strictly greater. -/
theorem c4_staleness_boundary :
    ∀ (env : Env) (name : String) (rdt : DateTime) (md : Int)
      (members out : List Int) (r : Int) (files : List String) (lastf : String)
      (rtime : DateTime),
    env.regions.lookup name = some members →
    update_rids_in_region env name rdt md = .ok out →
    r ∈ members →
    env.vols r (dateTriple rdt) = some files →
    (pySorted (files.filter globMatch)).getLast? = some lastf →
    get_time lastf = some rtime →
    (r ∈ out ↔ toSeconds rdt - toSeconds rtime ≤ md) := by
  intro env name rdt md members out r files lastf rtime hm hu hr hv hlast hget
  have hstat : radar_status env rdt md r
      = if toSeconds rdt - toSeconds rtime > md then .stale else .live := by
    simp only [radar_status, hv, hlast, hget]
  have hout := update_ok_eq env name rdt md members out hm hu
  rw [hout, List.mem_filter]
  constructor
  · rintro ⟨-, hl⟩
    by_contra hgt
    push_neg at hgt
    unfold isLive at hl
    rw [hstat, if_pos hgt] at hl
    simp at hl
  · intro hle
    refine ⟨hr, ?_⟩
    unfold isLive
    rw [hstat, if_neg (by omega)]

/-- Witness for C4: with `maxStaleness = 600`, the radar stale by 601 s is
excluded, the one 599 s old is included, and the one at exactly 600 s is
included (the boundary is exclusive). -/
theorem c4_staleness_boundary_witness :
    (toSeconds rdtW - toSeconds ⟨2022, 11, 14, 23, 59, 59⟩ = 601 ∧
      (((1 : Int) ∈ ([2, 3] : List Int)) ↔
        toSeconds rdtW - toSeconds ⟨2022, 11, 14, 23, 59, 59⟩ ≤ 600)) ∧
    (toSeconds rdtW - toSeconds ⟨2022, 11, 15, 0, 0, 1⟩ = 599 ∧
      (((2 : Int) ∈ ([2, 3] : List Int)) ↔
        toSeconds rdtW - toSeconds ⟨2022, 11, 15, 0, 0, 1⟩ ≤ 600)) ∧
    (toSeconds rdtW - toSeconds ⟨2022, 11, 15, 0, 0, 0⟩ = 600 ∧
      (((3 : Int) ∈ ([2, 3] : List Int)) ↔
        toSeconds rdtW - toSeconds ⟨2022, 11, 15, 0, 0, 0⟩ ≤ 600)) :=
  ⟨⟨by decide, c4_staleness_boundary envC4 "A" rdtW 600 [1, 2, 3] [2, 3] 1
      ["v_20221114_235959.h5"] "v_20221114_235959.h5" ⟨2022, 11, 14, 23, 59, 59⟩
      rfl rfl (by decide) rfl rfl rfl⟩,
    ⟨by decide, c4_staleness_boundary envC4 "A" rdtW 600 [1, 2, 3] [2, 3] 2
      ["v_20221115_000001.h5"] "v_20221115_000001.h5" ⟨2022, 11, 15, 0, 0, 1⟩
      rfl rfl (by decide) rfl rfl rfl⟩,
    ⟨by decide, c4_staleness_boundary envC4 "A" rdtW 600 [1, 2, 3] [2, 3] 3
      ["v_20221115_000000.h5"] "v_20221115_000000.h5" ⟨2022, 11, 15, 0, 0, 0⟩
      rfl rfl (by decide) rfl rfl rfl⟩⟩

/-! ### Claim C5: empty live set is an error -/

/-- Claim C5: an evaluation never returns an empty list; when no member
radar is judged live (and no parse error aborts earlier), it fails with the
no-live-radars error naming the region. -/
theorem c5_no_live_radars_error :
    ∀ (env : Env) (name : String) (rdt : DateTime) (md : Int),
    (∀ out, update_rids_in_region env name rdt md = .ok out → out ≠ []) ∧
    (∀ members, env.regions.lookup name = some members →
      firstParseErr env rdt md members = none →
      members.filter (isLive env rdt md) = [] →
      update_rids_in_region env name rdt md = .error (.noLiveRadars name)) := by
  intro env name rdt md
  constructor
  · intro out h hnil
    subst hnil
    rw [update_eq] at h
    split at h
    · simp at h
    · split at h
      · simp at h
      · split at h
        · simp at h
        · rename_i hne
          rw [Except.ok.injEq] at h
          exact hne h
  · intro members hm hfp hfil
    rw [update_eq]
    simp [hm, hfp, hfil]

/-- Witness for C5: region `Z`'s only radar is a day stale, so the
evaluation fails naming `Z`. -/
theorem c5_no_live_radars_error_witness :
    update_rids_in_region envC4 "Z" rdtW 600 = .error (.noLiveRadars "Z") :=
  (c5_no_live_radars_error envC4 "Z" rdtW 600).2 [9] rfl rfl rfl

/-! ### Claim C8: unparsable evidence filename is a hard failure -/

/-- Claim C8: when a member radar's listing is non-empty but the last sorted
filename has no parsable timestamp token, the whole evaluation fails with
the evidence-parse error for that radar and filename (propagated, not a
silent exclusion). -/
theorem c8_evidence_parse_hard_failure :
    ∀ (env : Env) (name : String) (rdt : DateTime) (md : Int)
      (members pre post : List Int) (r : Int) (files : List String) (lastf : String),
    env.regions.lookup name = some members →
    members = pre ++ r :: post →
    firstParseErr env rdt md pre = none →
    env.vols r (dateTriple rdt) = some files →
    (pySorted (files.filter globMatch)).getLast? = some lastf →
    get_time lastf = none →
    update_rids_in_region env name rdt md = .error (.evidenceParse r lastf) := by
  intro env name rdt md members pre post r files lastf hm hsplit hpre hv hlast hget
  have hstat : radar_status env rdt md r = .parseErr lastf := by
    simp only [radar_status, hv, hlast, hget]
  have hfp : firstParseErr env rdt md members = some (r, lastf) := by
    rw [hsplit, firstParseErr_append env rdt md pre _ hpre]
    simp only [firstParseErr, hstat]
  rw [update_eq]
  simp [hm, hfp]

/-- Witness for C8: a non-empty directory whose only (hence last) filename
`badfile.h5` has no timestamp token aborts the evaluation of region `E`. -/
theorem c8_evidence_parse_hard_failure_witness :
    update_rids_in_region envC4 "E" rdtW 600 = .error (.evidenceParse 8 "badfile.h5") :=
  c8_evidence_parse_hard_failure envC4 "E" rdtW 600 [8] [] [] 8 ["badfile.h5"] "badfile.h5"
    rfl rfl rfl rfl rfl rfl

/-! ### Claim C9: the result is a subsequence of the declared members -/

/-- Claim C9: a successful evaluation returns a subsequence of the region's
declared member list — only declared members, in declared order — and is
duplicate-free whenever the declared member list is. -/
theorem c9_result_sublist_of_members :
    ∀ (env : Env) (name : String) (rdt : DateTime) (md : Int) (members out : List Int),
    env.regions.lookup name = some members →
    update_rids_in_region env name rdt md = .ok out →
    out.Sublist members ∧ (members.Nodup → out.Nodup) := by
  intro env name rdt md members out hm h
  have hout := update_ok_eq env name rdt md members out hm h
  rw [hout]
  exact ⟨List.filter_sublist _, fun hn => List.Nodup.sublist (List.filter_sublist _) hn⟩

/-- Witness for C9: the result `[2, 3]` is a subsequence of `[1, 2, 3]` and
duplicate-free. -/
theorem c9_result_sublist_of_members_witness :
    ([2, 3] : List Int).Sublist [1, 2, 3] ∧
      (([1, 2, 3] : List Int).Nodup → ([2, 3] : List Int).Nodup) :=
  c9_result_sublist_of_members envC4 "A" rdtW 600 [1, 2, 3] [2, 3] rfl rfl

end Swirlconf
